import Mathlib

/-!
Shallow embedding of the Financial Analytics & Decision-Support Engine of the
money-saarthi repository (src/services/analytics.ts, src/services/insights.ts
and the purchase-planner service), together with theorems checking the
natural-language specification against it.

Modelling conventions:
* JavaScript numbers are modelled as exact rationals (`ℚ`); every arithmetic
  operation appearing in the source (+, -, *, /, integer powers, min, max,
  Math.round, Math.ceil) is exact on `ℚ`.
* `Math.round` is `jsRound` below (round half up, as in JavaScript).
* A calendar date is represented by its absolute month index
  `year * 12 + monthOfYear` (an integer), which is exactly the grouping key
  `getMonthKey` computes and exactly how `new Date(y, m, 1)` normalises
  out-of-range month arithmetic.  Day-of-month and string formatting of dates
  play no role in any analytics computation.
* `Math.sqrt` (used only inside expressions that are afterwards clamped to
  [0,100] or compared against constants) is abstracted as an explicit function
  parameter `sqrtFn : ℚ → ℚ`; all theorems quantify over it.
* JavaScript's `x || d` on numbers (default when `undefined`, `0` or NaN) is
  `jsOrNum` / `jsOrQ`; on strings (default when empty) it is `jsOrStr`.
* Number → string rendering (`toLocaleString`, `toFixed`) is abstracted by
  Lean's `toString`; no claim depends on the rendered digits of a message.
-/

namespace MoneySaarthi

/-- JavaScript `Math.round`: round half toward positive infinity. -/
def jsRound (q : ℚ) : ℤ := ⌊q + 1 / 2⌋

/-- JavaScript `x || d` for an optional number field: the default is used when
the field is `undefined` or `0`. -/
def jsOrNum (x : Option ℚ) (d : ℚ) : ℚ :=
  match x with
  | none => d
  | some v => if v = 0 then d else v

/-- JavaScript `x || d` for a present number: `0` falls through to the default. -/
def jsOrQ (x d : ℚ) : ℚ := if x = 0 then d else x

/-- JavaScript `x || d` for an optional natural-number field (tenure months). -/
def jsOrNat (x : Option ℕ) (d : ℕ) : ℕ :=
  match x with
  | none => d
  | some v => if v = 0 then d else v

/-- JavaScript `s || d` for strings: the empty string falls through. -/
def jsOrStr (s d : String) : String := if s = "" then d else s

/-- `MONTH_NAMES` from analytics.ts. -/
def MONTH_NAMES : List String :=
  ["Jan", "Feb", "Mar", "Apr", "May", "Jun", "Jul", "Aug", "Sep", "Oct", "Nov", "Dec"]

/-- Month label of an absolute month index (`MONTH_NAMES[d.getMonth()]`). -/
def monthName (ym : ℤ) : String := MONTH_NAMES.getD (ym % 12).toNat ""

/-- An income record (api.ts `Income`); only `amount` and `date` participate in
analytics, the id/user/source fields are opaque there. `date` is the absolute
month index of the record's date. -/
structure Income where
  amount : ℚ
  date : ℤ
deriving DecidableEq

/-- An expense record (api.ts `Expense`); only `amount`, `category` and `date`
participate in analytics. -/
structure Expense where
  amount : ℚ
  category : String
  date : ℤ
deriving DecidableEq

/-- analytics.ts `MonthlyAggregate`. -/
structure MonthlyAggregate where
  month : String
  monthIndex : ℤ
  year : ℤ
  income : ℚ
  expenses : ℚ
  savings : ℚ
  savingsRate : ℚ
deriving DecidableEq

/-- Placeholder aggregate used only as the (never reached) default of list
indexing; the 12-month aggregate list is never empty. -/
def dummyAgg : MonthlyAggregate :=
  { month := "", monthIndex := 0, year := 0, income := 0, expenses := 0,
    savings := 0, savingsRate := 0 }

/-- The aggregate of one bucket month `ym`: the sums of the records whose
month key equals `ym`, with `savings` and `savingsRate` derived afterwards
exactly as the `map.forEach` pass of the source does. -/
def monthAggregate (incomes : List Income) (expenses : List Expense) (ym : ℤ) :
    MonthlyAggregate :=
  let inc : ℚ := ((incomes.filter (fun i => i.date == ym)).map Income.amount).sum
  let exp : ℚ := ((expenses.filter (fun e => e.date == ym)).map Expense.amount).sum
  { month := monthName ym
    monthIndex := ym % 12
    year := ym / 12
    income := inc
    expenses := exp
    savings := inc - exp
    savingsRate := if 0 < inc then (inc - exp) / inc * 100 else 0 }

/-- analytics.ts `getMonthlyAggregates`: one aggregate per trailing calendar
month (11 months back through the current month `now`, oldest first); records
outside that window are dropped. -/
def getMonthlyAggregates (now : ℤ) (incomes : List Income) (expenses : List Expense) :
    List MonthlyAggregate :=
  (List.range 12).map (fun (k : ℕ) => monthAggregate incomes expenses (now - 11 + (k : ℤ)))

/-- analytics.ts `getCurrentMonthStats` result shape. -/
structure CurrentMonthStats where
  income : ℚ
  expenses : ℚ
  savings : ℚ
  savingsRate : ℚ
deriving DecidableEq

/-- analytics.ts `getCurrentMonthStats`: totals for the current calendar month
only. -/
def getCurrentMonthStats (now : ℤ) (incomes : List Income) (expenses : List Expense) :
    CurrentMonthStats :=
  let monthIncome : ℚ := ((incomes.filter (fun i => i.date == now)).map Income.amount).sum
  let monthExpenses : ℚ := ((expenses.filter (fun e => e.date == now)).map Expense.amount).sum
  { income := monthIncome
    expenses := monthExpenses
    savings := monthIncome - monthExpenses
    savingsRate :=
      if 0 < monthIncome then (monthIncome - monthExpenses) / monthIncome * 100 else 0 }

/-- analytics.ts `CategorySummary`.  `monthlyBreakdown` is a JS object keyed by
month label; it is modelled as a total function that is `0` on absent keys,
which is exactly how every read site (`breakdown[m] || 0`) treats it. -/
structure CategorySummary where
  category : String
  total : ℚ
  percentage : ℚ
  monthlyBreakdown : String → ℚ
  growth : ℚ

/-- The distinct categories of an expense list, in order of first occurrence
(JS `Map` insertion order). -/
def catNames (expenses : List Expense) : List String :=
  expenses.foldl (fun ks e => if e.category ∈ ks then ks else ks ++ [e.category]) []

/-- Total amount spent in category `c`. -/
def catTotal (expenses : List Expense) (c : String) : ℚ :=
  ((expenses.filter (fun e => e.category == c)).map Expense.amount).sum

/-- Amount spent in category `c` during months labelled `ml`. -/
def catMonthTotal (expenses : List Expense) (c ml : String) : ℚ :=
  ((expenses.filter (fun e => e.category == c && monthName e.date == ml)).map
    Expense.amount).sum

/-- The summary of one category `c`: its total, share of the all-expense
total, month breakdown and current-vs-previous-calendar-month growth. -/
def catBuild (now : ℤ) (expenses : List Expense) (c : String) : CategorySummary :=
  let totalAll : ℚ := (expenses.map Expense.amount).sum
  let thisMonth : ℤ := now % 12
  let lastMonth : ℤ := if thisMonth = 0 then 11 else thisMonth - 1
  let thisM : String := MONTH_NAMES.getD thisMonth.toNat ""
  let lastM : String := MONTH_NAMES.getD lastMonth.toNat ""
  let thisVal := catMonthTotal expenses c thisM
  let lastVal := catMonthTotal expenses c lastM
  { category := c
    total := catTotal expenses c
    percentage := if 0 < totalAll then catTotal expenses c / totalAll * 100 else 0
    monthlyBreakdown := fun ml => catMonthTotal expenses c ml
    growth := if 0 < lastVal then (thisVal - lastVal) / lastVal * 100 else 0 }

/-- analytics.ts `getCategorySummaries`: group all expenses by category
(first-occurrence order), derive each category's share of the all-expense
total and its growth from last calendar month to the current one, then sort
descending by total (stable JS `sort` with comparator `b.total - a.total`). -/
def getCategorySummaries (now : ℤ) (expenses : List Expense) : List CategorySummary :=
  ((catNames expenses).map (catBuild now expenses)).mergeSort
    (fun a b => decide (b.total ≤ a.total))

/-- analytics.ts `YearlySummary`. -/
structure YearlySummary where
  totalIncome : ℚ
  totalExpenses : ℚ
  totalSavings : ℚ
  savingsRate : ℚ
  highestSpendingCategory : String
  highestSpendingAmount : ℚ
  bestMonth : String
  worstMonth : String
  averageMonthlyExpense : ℚ
  averageMonthlyIncome : ℚ
  monthsTracked : ℕ
deriving DecidableEq

/-- The aggregates of the trailing window that are "active" (nonzero income or
nonzero expenses); this filter appears verbatim in getYearlySummary,
getPredictions and generateInsights. -/
def activeMonths (now : ℤ) (incomes : List Income) (expenses : List Expense) :
    List MonthlyAggregate :=
  (getMonthlyAggregates now incomes expenses).filter
    (fun m => decide (0 < m.income) || decide (0 < m.expenses))

/-- analytics.ts `getYearlySummary`. -/
def getYearlySummary (now : ℤ) (incomes : List Income) (expenses : List Expense) :
    YearlySummary :=
  let totalIncome : ℚ := (incomes.map Income.amount).sum
  let totalExpenses : ℚ := (expenses.map Expense.amount).sum
  let totalSavings := totalIncome - totalExpenses
  let savingsRate : ℚ := if 0 < totalIncome then totalSavings / totalIncome * 100 else 0
  let categories := getCategorySummaries now expenses
  let monthly := getMonthlyAggregates now incomes expenses
  let active := activeMonths now incomes expenses
  let bestMonth :=
    active.foldl (fun b m => if b.savingsRate < m.savingsRate then m else b)
      (monthly.headD dummyAgg)
  let worstMonth :=
    active.foldl (fun w m => if w.expenses < m.expenses then m else w)
      (monthly.headD dummyAgg)
  { totalIncome := totalIncome
    totalExpenses := totalExpenses
    totalSavings := totalSavings
    savingsRate := savingsRate
    highestSpendingCategory :=
      match categories.head? with
      | some c => jsOrStr c.category "N/A"
      | none => "N/A"
    highestSpendingAmount :=
      match categories.head? with
      | some c => c.total
      | none => 0
    bestMonth := jsOrStr bestMonth.month "N/A"
    worstMonth := jsOrStr worstMonth.month "N/A"
    averageMonthlyExpense :=
      if 0 < active.length then totalExpenses / (active.length : ℚ) else 0
    averageMonthlyIncome :=
      if 0 < active.length then totalIncome / (active.length : ℚ) else 0
    monthsTracked := active.length }

/-- One factor of a weighted composite score. -/
structure ScoreFactor where
  label : String
  score : ℚ
  weight : ℚ
deriving DecidableEq

/-- analytics.ts `FinancialHealthScore` (grade is one of "A".."F"). -/
structure FinancialHealthScore where
  score : ℤ
  grade : String
  factors : List ScoreFactor
deriving DecidableEq

/-- Health factor 1 (weight 0.35): clamped yearly savings rate × 3.33. -/
def savingsScoreF (yearly : YearlySummary) : ℚ :=
  min 100 (max 0 (yearly.savingsRate * (333 / 100)))

/-- Health factor 2 (weight 0.20): 100 minus the top category's percentage
(`categories[0]?.percentage || 0`), floored at 0. -/
def diversityScoreF (categories : List CategorySummary) : ℚ :=
  let maxCatPct : ℚ :=
    match categories.head? with
    | some c => c.percentage
    | none => 0
  max 0 (100 - maxCatPct)

/-- Health factor 3 (weight 0.20): 100 minus the coefficient of variation of
monthly expenses ×100, clamped to [0,100]; 80 when fewer than two
expense-active months. -/
def consistencyScoreF (sqrtFn : ℚ → ℚ) (monthly : List MonthlyAggregate) : ℚ :=
  let active := monthly.filter (fun m => decide (0 < m.expenses))
  if 1 < active.length then
    let avg : ℚ := ((active.map MonthlyAggregate.expenses).sum) / (active.length : ℚ)
    let variance : ℚ :=
      ((active.map (fun m => (m.expenses - avg) ^ 2)).sum) / (active.length : ℚ)
    let cv : ℚ := if 0 < avg then sqrtFn variance / avg else 0
    max 0 (min 100 (100 - cv * 100))
  else 80

/-- Health factor 4 (weight 0.15): 80 with three or more income-active months,
otherwise 25 per income-active month. -/
def incomeStabilityF (monthly : List MonthlyAggregate) : ℚ :=
  let incomeMonths := monthly.filter (fun m => decide (0 < m.income))
  if 3 ≤ incomeMonths.length then 80 else (incomeMonths.length : ℚ) * 25

/-- Health factor 5 (weight 0.10): 90/20/50 by savings-rate direction over the
last two expense-active months. -/
def trendScoreF (monthly : List MonthlyAggregate) : ℚ :=
  let active := monthly.filter (fun m => decide (0 < m.expenses))
  if 2 ≤ active.length then
    let last := active.getD (active.length - 1) dummyAgg
    let prev := active.getD (active.length - 2) dummyAgg
    if prev.savingsRate < last.savingsRate then 90
    else if last.savingsRate < prev.savingsRate then 20
    else 50
  else 50

/-- analytics.ts `getFinancialHealthScore`.  `sqrtFn` abstracts `Math.sqrt`
(used only inside the clamped consistency factor); the five factor formulas
are the definitions above. -/
def getFinancialHealthScore (sqrtFn : ℚ → ℚ) (now : ℤ)
    (incomes : List Income) (expenses : List Expense) : FinancialHealthScore :=
  let yearly := getYearlySummary now incomes expenses
  let categories := getCategorySummaries now expenses
  let monthly := getMonthlyAggregates now incomes expenses
  let factors : List ScoreFactor :=
    [ { label := "Savings Rate", score := savingsScoreF yearly, weight := 35 / 100 },
      { label := "Expense Diversity", score := diversityScoreF categories,
        weight := 20 / 100 },
      { label := "Spending Consistency", score := consistencyScoreF sqrtFn monthly,
        weight := 20 / 100 },
      { label := "Income Stability", score := incomeStabilityF monthly,
        weight := 15 / 100 },
      { label := "Financial Trend", score := trendScoreF monthly, weight := 10 / 100 } ]
  let score : ℤ := jsRound ((factors.map (fun f => f.score * f.weight)).sum)
  let grade : String :=
    if 85 ≤ score then "A"
    else if 70 ≤ score then "B"
    else if 55 ≤ score then "C"
    else if 40 ≤ score then "D"
    else "F"
  { score := score, grade := grade, factors := factors }

/-- One month of analytics.ts `Prediction.threeMonthProjection`. -/
structure ProjectionEntry where
  month : String
  income : ℤ
  expenses : ℤ
  savings : ℤ
deriving DecidableEq

/-- analytics.ts `Prediction` (trend is "improving", "declining" or "stable"). -/
structure Prediction where
  nextMonthIncome : ℤ
  nextMonthExpense : ℤ
  nextMonthSavingsRate : ℚ
  threeMonthProjection : List ProjectionEntry
  trend : String
deriving DecidableEq

/-- Placeholder used as the (never reached) default of projection indexing. -/
def dummyProjection : ProjectionEntry :=
  { month := "", income := 0, expenses := 0, savings := 0 }

/-- The trend classification of analytics.ts `getPredictions`: the savings-rate
delta between the last and the first of the last three active months
(`active.slice(-3)`), banded at ±3 percentage points. -/
def trendOf (active : List MonthlyAggregate) : String :=
  let last3 := active.drop (active.length - 3)
  let savingsTrend : ℚ :=
    if 2 ≤ last3.length then
      (last3.getD (last3.length - 1) dummyAgg).savingsRate
        - (last3.getD 0 dummyAgg).savingsRate
    else 0
  if 3 < savingsTrend then "improving"
  else if savingsTrend < -3 then "declining"
  else "stable"

/-- analytics.ts `getPredictions`: weighted moving average, growth from the
first vs. last of the last three active months, a 3-month projection and a
trend classification, with a zeroed degenerate output when fewer than two
active months exist. -/
def getPredictions (now : ℤ) (incomes : List Income) (expenses : List Expense) :
    Prediction :=
  let active := activeMonths now incomes expenses
  if active.length < 2 then
    { nextMonthIncome := 0, nextMonthExpense := 0, nextMonthSavingsRate := 0,
      threeMonthProjection := [], trend := "stable" }
  else
    let totalWeight : ℚ := (((List.range active.length).map (fun i => (i : ℚ) + 1)).sum)
    let avgIncome : ℚ :=
      ((active.enum.map (fun p => p.2.income * ((p.1 : ℚ) + 1))).sum) / totalWeight
    let avgExpense : ℚ :=
      ((active.enum.map (fun p => p.2.expenses * ((p.1 : ℚ) + 1))).sum) / totalWeight
    let last3 := active.drop (active.length - 3)
    let incomeGrowth : ℚ :=
      if 2 ≤ last3.length then
        ((last3.getD (last3.length - 1) dummyAgg).income - (last3.getD 0 dummyAgg).income)
          / max (last3.getD 0 dummyAgg).income 1 / (last3.length : ℚ)
      else 0
    let expenseGrowth : ℚ :=
      if 2 ≤ last3.length then
        ((last3.getD (last3.length - 1) dummyAgg).expenses - (last3.getD 0 dummyAgg).expenses)
          / max (last3.getD 0 dummyAgg).expenses 1 / (last3.length : ℚ)
      else 0
    let projection : List ProjectionEntry :=
      (List.range 3).map (fun t =>
        let i : ℕ := t + 1
        let inc : ℤ := jsRound (avgIncome * (1 + incomeGrowth * (i : ℚ)))
        let exp : ℤ := jsRound (avgExpense * (1 + expenseGrowth * (i : ℚ)))
        { month := monthName (now + i), income := inc, expenses := exp,
          savings := inc - exp })
    let nextIncome : ℤ := (projection.headD dummyProjection).income
    let nextExpense : ℤ := (projection.headD dummyProjection).expenses
    let nextSavingsRate : ℚ :=
      if 0 < nextIncome then (((nextIncome : ℚ) - (nextExpense : ℚ)) / (nextIncome : ℚ)) * 100
      else 0
    { nextMonthIncome := nextIncome
      nextMonthExpense := nextExpense
      nextMonthSavingsRate := nextSavingsRate
      threeMonthProjection := projection
      trend := trendOf active }

/-- api.ts `AIInsight`: a severity tag ("info", "success", "warning",
"danger") and a message. -/
structure AIInsight where
  type : String
  message : String
deriving DecidableEq

namespace Insights

/-- insights.ts `fmt`: `₹` followed by the absolute rounded amount
(`toLocaleString` digit grouping abstracted). -/
def fmt (n : ℚ) : String := "₹" ++ toString (jsRound n).natAbs

/-- insights.ts `pct`: percentage rendering (`toFixed(1)` abstracted). -/
def pctS (n : ℚ) : String := toString n ++ "%"

/-- Placeholder category summary used as the (never reached) default of
indexing into a category list known to be long enough. -/
def dummyCat : CategorySummary :=
  { category := "", total := 0, percentage := 0, monthlyBreakdown := fun _ => 0,
    growth := 0 }

/-- Savings-performance rule group of insights.ts `generateInsights`. -/
def savingsPerfMsgs (savingsRate balance : ℚ) : List AIInsight :=
  (if savingsRate < 0 then
    [{ type := "danger",
       message := "⚠️ You\x27re overspending by " ++ fmt |balance| ++ "! Your expenses exceed income. Immediate action needed." },
     { type := "danger",
       message := "Running a negative savings rate means you\x27re depleting reserves. Cut non-essential spending today." }]
   else []) ++
  (if 0 ≤ savingsRate ∧ savingsRate < 5 then
    [{ type := "danger",
       message := "Your savings rate is critically low at " ++ pctS savingsRate ++ ". You\x27re saving almost nothing." },
     { type := "warning",
       message := "With less than 5% savings, you have no emergency buffer. Aim for at least 20%." }]
   else []) ++
  (if 5 ≤ savingsRate ∧ savingsRate < 10 then
    [{ type := "warning",
       message := "Savings rate of " ++ pctS savingsRate ++ " is below recommended. Try reducing discretionary spending." }]
   else []) ++
  (if 10 ≤ savingsRate ∧ savingsRate < 20 then
    [{ type := "warning",
       message := "You\x27re saving " ++ pctS savingsRate ++ " — good progress, but the 20% target is the sweet spot." },
     { type := "info",
       message := "At your current rate, consider automating a small portion into a savings account." }]
   else []) ++
  (if 20 ≤ savingsRate ∧ savingsRate < 35 then
    [{ type := "success",
       message := "Excellent! " ++ pctS savingsRate ++ " savings rate beats the recommended 20%. You\x27re building wealth." },
     { type := "success",
       message := "Your savings discipline is strong. Consider diversifying into mutual funds or SIPs." }]
   else []) ++
  (if 35 ≤ savingsRate ∧ savingsRate < 50 then
    [{ type := "success",
       message := "Outstanding " ++ pctS savingsRate ++ " savings rate! You\x27re in the top tier of financial discipline." },
     { type := "info",
       message := "With 35%+ savings, explore tax-saving instruments like PPF, ELSS, or NPS." }]
   else []) ++
  (if 50 ≤ savingsRate then
    [{ type := "success",
       message := "Incredible " ++ pctS savingsRate ++ " savings rate! You could achieve FIRE (Financial Independence) at this pace." },
     { type := "info",
       message := "Consider investing aggressively — index funds, real estate, or starting a side business." }]
   else []) ++
  (if 0 < balance then
    [{ type := "success",
       message := "You\x27ve accumulated " ++ fmt balance ++ " in net savings. Keep this momentum going!" }]
   else [])

/-- Year-to-date savings milestone rule group. -/
def milestoneMsgs (totalSavings : ℚ) : List AIInsight :=
  (if 100000 ≤ totalSavings then
    [{ type := "success",
       message := "🏆 Milestone! You\x27ve saved over ₹1 lakh this year. Financial freedom is within reach!" }]
   else []) ++
  (if 50000 ≤ totalSavings ∧ totalSavings < 100000 then
    [{ type := "success",
       message := "You\x27ve saved " ++ fmt totalSavings ++ " this year. Halfway to the ₹1 lakh milestone!" }]
   else []) ++
  (if 10000 ≤ totalSavings ∧ totalSavings < 50000 then
    [{ type := "info",
       message := fmt totalSavings ++ " saved so far this year. Consistency will get you to bigger milestones." }]
   else [])

/-- Overspending-warnings rule group. -/
def overspendMsgs (categories : List CategorySummary) (totalIncome totalExpenses : ℚ) :
    List AIInsight :=
  (categories.flatMap (fun cat =>
    (if 50 < cat.percentage then
      [{ type := "danger",
         message := "🚨 " ++ cat.category ++ " alone accounts for " ++ pctS cat.percentage ++ " of all expenses — that\x27s dangerously high." }]
     else []) ++
    (if 30 < cat.percentage ∧ cat.percentage ≤ 50 then
      [{ type := "warning",
         message := cat.category ++ " spending is " ++ pctS cat.percentage ++ " of total — above the 30% recommended limit." }]
     else []) ++
    (if 20 < cat.percentage ∧ cat.percentage ≤ 30 then
      [{ type := "info",
         message := cat.category ++ " at " ++ pctS cat.percentage ++ " of expenses is manageable but worth monitoring." }]
     else []))) ++
  (if 0 < categories.length then
    [{ type := "info",
       message := "Your top spending category is " ++ (categories.headD dummyCat).category ++ " at " ++ fmt (categories.headD dummyCat).total ++ "." }]
   else []) ++
  (if 2 ≤ categories.length then
    [{ type := "info",
       message := (categories.headD dummyCat).category ++ " and " ++ (categories.getD 1 dummyCat).category ++ " together make up " ++ pctS ((categories.headD dummyCat).percentage + (categories.getD 1 dummyCat).percentage) ++ " of spending." }]
   else []) ++
  (if totalIncome * (9 / 10) < totalExpenses then
    [{ type := "danger",
       message := "You\x27re spending over 90% of your income. One unexpected expense could put you in debt." }]
   else [])

/-- Category-spikes rule group. -/
def spikeMsgs (categories : List CategorySummary) : List AIInsight :=
  categories.flatMap (fun cat =>
    if 50 < cat.growth then
      [{ type := "danger",
         message := "📈 " ++ cat.category ++ " spending spiked " ++ pctS cat.growth ++ " this month compared to last — investigate!" }]
    else if 20 < cat.growth then
      [{ type := "warning",
         message := cat.category ++ " costs rose " ++ pctS cat.growth ++ " month-over-month. Is this a one-time event?" }]
    else if cat.growth < -20 then
      [{ type := "success",
         message := "You reduced " ++ cat.category ++ " spending by " ++ pctS |cat.growth| ++ " — great cost control!" }]
    else [])

/-- Month-over-month rule group. -/
def momMsgs (active : List MonthlyAggregate) : List AIInsight :=
  if 2 ≤ active.length then
    let last := active.getD (active.length - 1) dummyAgg
    let prev := active.getD (active.length - 2) dummyAgg
    (if prev.expenses < last.expenses then
      let inc := (last.expenses - prev.expenses) / prev.expenses * 100
      [{ type := "warning",
         message := "Expenses increased " ++ pctS inc ++ " from " ++ prev.month ++ " to " ++ last.month ++ ". Review recent transactions." }] ++
      (if 30 < inc then
        [{ type := "danger",
           message := "A " ++ pctS inc ++ " expense jump is alarming. Check for unusual or unplanned purchases." }]
       else [])
     else if last.expenses < prev.expenses then
      let dec := (prev.expenses - last.expenses) / prev.expenses * 100
      [{ type := "success",
         message := "Spending dropped " ++ pctS dec ++ " from " ++ prev.month ++ " to " ++ last.month ++ " — excellent discipline!" }]
     else []) ++
    (if prev.income < last.income then
      [{ type := "success",
         message := "Income grew from " ++ prev.month ++ " to " ++ last.month ++ " — capitalize on this by saving the difference." }]
     else if last.income < prev.income ∧ 0 < last.income then
      [{ type := "warning",
         message := "Income decreased from " ++ prev.month ++ ". Diversify income sources to reduce risk." }]
     else []) ++
    (if prev.savingsRate + 5 < last.savingsRate then
      [{ type := "success",
         message := "Your savings rate improved by " ++ pctS (last.savingsRate - prev.savingsRate) ++ " — strong financial progress." }]
     else []) ++
    (if last.savingsRate < prev.savingsRate - 5 then
      [{ type := "warning",
         message := "Savings rate dropped " ++ pctS (prev.savingsRate - last.savingsRate) ++ " — recalibrate your budget." }]
     else [])
  else []

/-- Best/worst-month rule group. -/
def bestWorstMsgs (active : List MonthlyAggregate) : List AIInsight :=
  if 3 ≤ active.length then
    let best := active.tail.foldl
      (fun a b => if b.savingsRate < a.savingsRate then a else b) (active.headD dummyAgg)
    let worst := active.tail.foldl
      (fun a b => if b.expenses < a.expenses then a else b) (active.headD dummyAgg)
    let lowestExpense := active.tail.foldl
      (fun a b => if a.expenses < b.expenses ∧ 0 < a.expenses then a else b)
      (active.headD dummyAgg)
    [{ type := "success",
       message := "🏆 " ++ best.month ++ " was your best month with " ++ pctS best.savingsRate ++ " savings rate." },
     { type := "warning",
       message := worst.month ++ " had the highest spending at " ++ fmt worst.expenses ++ ". Learn from that pattern." }] ++
    (if 0 < lowestExpense.expenses then
      [{ type := "success",
         message := lowestExpense.month ++ " had the lowest expenses at " ++ fmt lowestExpense.expenses ++ " — can you replicate that?" }]
     else []) ++
    (let avgExpense : ℚ := ((active.map MonthlyAggregate.expenses).sum) / (active.length : ℚ)
     let aboveAvg := active.filter (fun m => decide (avgExpense * (6 / 5) < m.expenses))
     if 0 < aboveAvg.length then
      [{ type := "info",
         message := toString aboveAvg.length ++ " month(s) exceeded your average spending by 20%+. Look for seasonal patterns." }]
     else [])
  else []

/-- Spending-consistency rule group. -/
def consistencyMsgs (sqrtFn : ℚ → ℚ) (active : List MonthlyAggregate) : List AIInsight :=
  if 3 ≤ active.length then
    let expValues := (active.map MonthlyAggregate.expenses).filter (fun v => decide (0 < v))
    let avg : ℚ := expValues.sum / (expValues.length : ℚ)
    let variance : ℚ := ((expValues.map (fun v => (v - avg) ^ 2)).sum) / (expValues.length : ℚ)
    let cv : ℚ := if 0 < avg then sqrtFn variance / avg else 0
    if cv < 15 / 100 then
      [{ type := "success",
         message := "Your spending is very consistent month-to-month — a sign of strong budgeting." }]
    else if cv < 3 / 10 then
      [{ type := "info",
         message := "Moderate spending variation detected. Consider setting monthly budget targets." }]
    else
      [{ type := "warning",
         message := "High spending variance across months. Volatile expenses make planning difficult." },
       { type := "info",
         message := "Try creating a fixed monthly budget to reduce spending swings." }]
  else []

/-- Risk-alerts rule group. -/
def riskMsgs (yearly : YearlySummary) (categories : List CategorySummary)
    (nIncomes nExpenses : ℕ) (active : List MonthlyAggregate) : List AIInsight :=
  (if yearly.averageMonthlyIncome * (19 / 20) < yearly.averageMonthlyExpense then
    [{ type := "danger",
       message := "Your average monthly expenses nearly match income — zero margin for emergencies." }]
   else []) ++
  (if categories.length = 1 then
    [{ type := "warning",
       message := "All expenses in one category — diversify tracking for better insights." }]
   else []) ++
  (if nIncomes < 3 ∧ 10 < nExpenses then
    [{ type := "warning",
       message := "You\x27ve logged many expenses but few income entries. Are you tracking all income sources?" }]
   else []) ++
  (if yearly.monthsTracked < 3 then
    [{ type := "info",
       message := "Track at least 3 months of data for meaningful trend analysis and predictions." }]
   else []) ++
  (let noIncomeMonths := active.filter (fun m => m.income == 0 && decide (0 < m.expenses))
   if 0 < noIncomeMonths.length then
    [{ type := "warning",
       message := toString noIncomeMonths.length ++ " month(s) show expenses but no income. Ensure all income is recorded." }]
   else [])

/-- Emergency-fund rule group. -/
def emergencyMsgs (balance : ℚ) (yearly : YearlySummary) : List AIInsight :=
  (if 0 < balance ∧ balance < yearly.averageMonthlyExpense * 3 then
    [{ type := "warning",
       message := "Your savings cover less than 3 months of expenses. Build a 6-month emergency fund (" ++ fmt (yearly.averageMonthlyExpense * 6) ++ ")." }]
   else []) ++
  (if yearly.averageMonthlyExpense * 6 ≤ balance ∧ 0 < yearly.averageMonthlyExpense then
    [{ type := "success",
       message := "You have 6+ months of expenses saved — your emergency fund is solid!" }]
   else [])

/-- Positive-reinforcement rule group. -/
def reinforcementMsgs (health : FinancialHealthScore) (currentMonth : CurrentMonthStats)
    (savingsRate : ℚ) (active : List MonthlyAggregate) : List AIInsight :=
  (if 80 ≤ health.score then
    [{ type := "success",
       message := "Your Financial Health Score is " ++ toString health.score ++ "/100 (Grade " ++ health.grade ++ ") — outstanding!" }]
   else if 60 ≤ health.score then
    [{ type := "info",
       message := "Financial Health Score: " ++ toString health.score ++ "/100 (Grade " ++ health.grade ++ "). Room for improvement." }]
   else
    [{ type := "warning",
       message := "Financial Health Score: " ++ toString health.score ++ "/100 (Grade " ++ health.grade ++ "). Focus on savings and expense control." }]) ++
  (if savingsRate < currentMonth.savingsRate then
    [{ type := "success",
       message := "This month\x27s savings rate (" ++ pctS currentMonth.savingsRate ++ ") beats your overall average — trending up!" }]
   else []) ++
  (let consecutiveSaving := (active.filter (fun m => decide (0 < m.savings))).length
   if 6 ≤ consecutiveSaving then
    [{ type := "success",
       message := toString consecutiveSaving ++ " months of positive savings — remarkable consistency!" }]
   else if 3 ≤ consecutiveSaving then
    [{ type := "success",
       message := toString consecutiveSaving ++ " months of positive savings in a row. Keep the streak alive!" }]
   else [])

/-- Investment-suggestions rule group. -/
def investmentMsgs (savingsRate balance : ℚ) : List AIInsight :=
  (if 20 ≤ savingsRate ∧ 10000 ≤ balance then
    [{ type := "info",
       message := "With strong savings, consider starting a SIP in index funds for long-term growth." },
     { type := "info",
       message := "PPF and ELSS offer tax benefits under Section 80C — maximize your deductions." }]
   else []) ++
  (if 30 ≤ savingsRate then
    [{ type := "info",
       message := "At 30%+ savings rate, explore fixed deposits for guaranteed returns on idle cash." }]
   else []) ++
  (if 50000 ≤ balance then
    [{ type := "info",
       message := "With $\x7bfmt(balance)\x7d saved, diversify: 50% equity, 30% debt, 20% gold/alternatives." }]
   else [])

/-- Forecast-derived rule group. -/
def predictionMsgs (predictions : Prediction) : List AIInsight :=
  (if 0 < predictions.nextMonthIncome then
    [{ type := "info",
       message := "📊 Predicted next month: Income " ++ fmt (predictions.nextMonthIncome : ℚ) ++ ", Expenses " ++ fmt (predictions.nextMonthExpense : ℚ) ++ "." }] ++
    (if 0 < predictions.nextMonthSavingsRate then
      [{ type := "info",
         message := "Projected savings rate next month: " ++ pctS predictions.nextMonthSavingsRate ++ "." }]
     else [])
   else []) ++
  (if predictions.trend = "improving" then
    [{ type := "success",
       message := "📈 Your financial trend is improving — savings rate is climbing over recent months." }]
   else if predictions.trend = "declining" then
    [{ type := "warning",
       message := "📉 Declining financial trend detected — expenses are growing faster than income." }]
   else [])

/-- Named-category expense-pattern rule group. -/
def patternMsgs (categories : List CategorySummary) : List AIInsight :=
  ((categories.find? (fun c => c.category == "Food")).elim []
    (fun c => if 35 < c.percentage then
      [{ type := "warning",
         message := "Food spending at " ++ pctS c.percentage ++ " is high. Try meal prepping to save 20-30%." }]
     else [])) ++
  ((categories.find? (fun c => c.category == "Transport")).elim []
    (fun c => if 15 < c.percentage then
      [{ type := "info",
         message := "Transport costs at " ++ pctS c.percentage ++ " — consider carpooling or public transit." }]
     else [])) ++
  ((categories.find? (fun c => c.category == "Entertainment")).elim []
    (fun c => if 15 < c.percentage then
      [{ type := "info",
         message := "Entertainment spending at " ++ pctS c.percentage ++ ". Balance enjoyment with savings goals." }]
     else [])) ++
  ((categories.find? (fun c => c.category == "Bills")).elim []
    (fun c => if 40 < c.percentage then
      [{ type := "warning",
         message := "Bills account for " ++ pctS c.percentage ++ " — review subscriptions and negotiate rates." }]
     else [])) ++
  ((categories.find? (fun c => c.category == "Shopping")).elim []
    (fun c => if 20 < c.percentage then
      [{ type := "warning",
         message := "Shopping at " ++ pctS c.percentage ++ " of expenses. Apply the 24-hour rule before purchases." }]
     else []))

/-- Anomaly-detection rule group. -/
def anomalyMsgs (yearly : YearlySummary) (categories : List CategorySummary)
    (active : List MonthlyAggregate) : List AIInsight :=
  if 3 ≤ active.length then
    let avgExp : ℚ := ((active.map MonthlyAggregate.expenses).sum) / (active.length : ℚ)
    let last := active.getD (active.length - 1) dummyAgg
    (if avgExp * (3 / 2) < last.expenses then
      [{ type := "danger",
         message := "⚠️ Anomaly: " ++ last.month ++ " expenses are 50%+ above your average — investigate large transactions." }]
     else []) ++
    (if 0 < last.income ∧ yearly.averageMonthlyIncome * (3 / 2) < last.income then
      [{ type := "success",
         message := "Income anomaly: " ++ last.month ++ " income was 50%+ above average — save the windfall!" }]
     else []) ++
    (if 4 < categories.length then
      [{ type := "info",
         message := "You\x27re spending across " ++ toString categories.length ++ " categories. Good tracking — detailed data = better insights." }]
     else [])
  else []

/-- Budget-breach rule group. -/
def breachMsgs (yearly : YearlySummary) (currentMonth : CurrentMonthStats)
    (thisMonthName : String) : List AIInsight :=
  (let monthlyBudget50 := jsOrQ yearly.averageMonthlyIncome currentMonth.income * (1 / 2)
   if monthlyBudget50 < currentMonth.expenses ∧ 0 < monthlyBudget50 then
    [{ type := "warning",
       message := "This month\x27s expenses (" ++ fmt currentMonth.expenses ++ ") exceed 50% of income. You\x27re past the needs threshold." }]
   else []) ++
  (if currentMonth.income < currentMonth.expenses ∧ 0 < currentMonth.income then
    [{ type := "danger",
       message := "🔴 Budget breach! " ++ thisMonthName ++ " expenses (" ++ fmt currentMonth.expenses ++ ") exceed income (" ++ fmt currentMonth.income ++ ")." }]
   else [])

/-- 50/30/20 needs-ratio rule group. -/
def rule503020Msgs (categories : List CategorySummary) (totalIncome : ℚ) : List AIInsight :=
  if 0 < totalIncome then
    let needsCats := categories.filter
      (fun c => decide (c.category ∈ ["Food", "Bills", "Transport"]))
    let needsTotal := (needsCats.map CategorySummary.total).sum
    let needsPct := needsTotal / totalIncome * 100
    if 50 < needsPct then
      [{ type := "warning",
         message := "Needs (Food, Bills, Transport) consume " ++ pctS needsPct ++ " of income — the 50/30/20 rule suggests max 50%." }]
    else
      [{ type := "success",
         message := "Essential spending at " ++ pctS needsPct ++ " of income — within the 50% guideline. Well managed!" }]
  else []

/-- Category-growth-trends rule group. -/
def growthTrendMsgs (categories : List CategorySummary) : List AIInsight :=
  (let growingCats := categories.filter (fun c => decide (10 < c.growth))
   if 0 < growingCats.length then
    [{ type := "warning",
       message := "Growing expenses: " ++ String.intercalate ", " (growingCats.map CategorySummary.category) ++ " — monitor these categories." }]
   else []) ++
  (let shrinkingCats := categories.filter (fun c => decide (c.growth < -10))
   if 0 < shrinkingCats.length then
    [{ type := "success",
       message := "Declining expenses: " ++ String.intercalate ", " (shrinkingCats.map CategorySummary.category) ++ " — great cost optimization!" }]
   else [])

/-- The fixed general tips, always appended. -/
def tipsMsgs : List AIInsight :=
  [{ type := "info",
     message := "💡 Tip: Track every expense, no matter how small. ₹50 daily = ₹18,000 yearly." },
   { type := "info",
     message := "💡 Tip: Review your subscriptions quarterly — cancel what you don\x27t actively use." },
   { type := "info",
     message := "💡 Tip: Set up automatic transfers to savings on payday to pay yourself first." }]

/-- insights.ts `generateInsights`: the flat rule bank.  Each `if` block of the
source appending to the `insights` array is one of the rule-group definitions
above, and the result is their concatenation in source order.  The zero-data
short circuit comes first. -/
def generateInsights (sqrtFn : ℚ → ℚ) (now : ℤ)
    (incomes : List Income) (expenses : List Expense) : List AIInsight :=
  let totalIncome : ℚ := (incomes.map Income.amount).sum
  let totalExpenses : ℚ := (expenses.map Expense.amount).sum
  if totalIncome = 0 ∧ totalExpenses = 0 then
    [{ type := "info",
       message := "Welcome! Start by adding your income and expenses to unlock 100+ personalized financial insights." }]
  else
    let balance := totalIncome - totalExpenses
    let savingsRate : ℚ := if 0 < totalIncome then balance / totalIncome * 100 else 0
    let yearly := getYearlySummary now incomes expenses
    let categories := getCategorySummaries now expenses
    let health := getFinancialHealthScore sqrtFn now incomes expenses
    let currentMonth := getCurrentMonthStats now incomes expenses
    let predictions := getPredictions now incomes expenses
    let active := activeMonths now incomes expenses
    let thisMonthName := MONTH_NAMES.getD ((now % 12).toNat) ""
    savingsPerfMsgs savingsRate balance ++
    milestoneMsgs yearly.totalSavings ++
    overspendMsgs categories totalIncome totalExpenses ++
    spikeMsgs categories ++
    momMsgs active ++
    bestWorstMsgs active ++
    consistencyMsgs sqrtFn active ++
    riskMsgs yearly categories incomes.length expenses.length active ++
    emergencyMsgs balance yearly ++
    reinforcementMsgs health currentMonth savingsRate active ++
    investmentMsgs savingsRate balance ++
    predictionMsgs predictions ++
    patternMsgs categories ++
    anomalyMsgs yearly categories active ++
    breachMsgs yearly currentMonth thisMonthName ++
    rule503020Msgs categories totalIncome ++
    growthTrendMsgs categories ++
    tipsMsgs

end Insights

namespace Planner

/-- Purchase-planner `FinancialProfile`. -/
structure FinancialProfile where
  monthlyIncome : ℚ
  monthlyExpenses : ℚ
  monthlyRoutineBills : ℚ
  existingSavings : ℚ
  extraSavingPerMonth : ℚ
deriving DecidableEq

/-- Purchase-planner `PurchaseDetails`.  `mode` is one of "emi", "savings",
"save-extra"; the optional fields model the `?` fields of the source.  The
tenure is a whole number of months (the source only ever receives integer
tenures and uses it as a loop bound and `Math.pow` exponent); `startDate` is
an absolute month index like every other date. -/
structure PurchaseDetails where
  itemName : String
  actualPrice : ℚ
  mode : String
  downPayment : Option ℚ := none
  emiTenureMonths : Option ℕ := none
  interestRate : Option ℚ := none
  startDate : Option ℤ := none
  monthlySavingForPurchase : Option ℚ := none
deriving DecidableEq

/-- Purchase-planner `EMIAnalysis`. -/
structure EMIAnalysis where
  emiAmount : ℤ
  totalAmountWithInterest : ℤ
  totalInterestPaid : ℤ
  emiBurdenPercent : ℚ
  newSavingsRate : ℚ
  isAffordable : Bool
  impactOnYearlySavings : ℤ
  disposableIncome : ℤ
  emiToDisposableRatio : ℚ
deriving DecidableEq

/-- One entry of `SavingsAnalysis.savingsGrowthTimeline`. -/
structure TimelineEntry where
  month : ℕ
  accumulated : ℚ
  remaining : ℚ
deriving DecidableEq

/-- Purchase-planner `SavingsAnalysis`.  `projectedPurchaseDate` is the
absolute month index of the projected date (ISO string rendering abstracted). -/
structure SavingsAnalysis where
  monthsRequired : ℤ
  projectedPurchaseDate : ℤ
  yearsRequired : ℚ
  isFeasibleWithinYear : Bool
  savingsGrowthTimeline : List TimelineEntry
  delayBenefitAmount : ℤ
deriving DecidableEq

/-- Purchase-planner `calculateEMI`: the amortizing-loan payment formula, with
the zero-interest branch `principal / tenureMonths`. -/
def calculateEMI (principal annualRate : ℚ) (tenureMonths : ℕ) : ℚ :=
  if annualRate = 0 then principal / (tenureMonths : ℚ)
  else
    let r := annualRate / 12 / 100
    (principal * r * (1 + r) ^ tenureMonths) / ((1 + r) ^ tenureMonths - 1)

/-- Purchase-planner `analyzeEMI`. -/
def analyzeEMI (profile : FinancialProfile) (details : PurchaseDetails) : EMIAnalysis :=
  let principal := details.actualPrice - jsOrNum details.downPayment 0
  let tenure := jsOrNat details.emiTenureMonths 12
  let rate := jsOrNum details.interestRate 0
  let emi := calculateEMI principal rate tenure
  let totalWithInterest := emi * (tenure : ℚ) + jsOrNum details.downPayment 0
  let totalInterest := totalWithInterest - details.actualPrice
  let disposable :=
    profile.monthlyIncome - profile.monthlyExpenses - profile.monthlyRoutineBills
  let emiBurden : ℚ := if 0 < disposable then emi / disposable * 100 else 100
  let newMonthlySavings := disposable - emi
  let newSavingsRate : ℚ :=
    if 0 < profile.monthlyIncome then newMonthlySavings / profile.monthlyIncome * 100
    else 0
  let currentSavings := disposable
  let yearlyImpact := (currentSavings - newMonthlySavings) * 12
  { emiAmount := jsRound emi
    totalAmountWithInterest := jsRound totalWithInterest
    totalInterestPaid := jsRound totalInterest
    emiBurdenPercent := (jsRound (emiBurden * 10) : ℚ) / 10
    newSavingsRate := (jsRound (newSavingsRate * 10) : ℚ) / 10
    isAffordable := decide (emiBurden < 40)
    impactOnYearlySavings := jsRound yearlyImpact
    disposableIncome := jsRound disposable
    emiToDisposableRatio := (jsRound (emi / max disposable 1 * 100) : ℚ) / 100 }

/-- The monthly saving the savings analysis uses:
`details.monthlySavingForPurchase || profile.extraSavingPerMonth || 1`. -/
def effectiveMonthlySaving (profile : FinancialProfile) (details : PurchaseDetails) : ℚ :=
  jsOrNum details.monthlySavingForPurchase (jsOrQ profile.extraSavingPerMonth 1)

/-- The clamped amount still to be saved: `Math.max(0, target - existing)`. -/
def savingsRemaining (profile : FinancialProfile) (details : PurchaseDetails) : ℚ :=
  max 0 (details.actualPrice - profile.existingSavings)

/-- `monthsReq` of `analyzeSavings`: the ceiling of remaining over the monthly
saving when something remains, else 0. -/
def monthsRequiredFor (profile : FinancialProfile) (details : PurchaseDetails) : ℤ :=
  if 0 < savingsRemaining profile details then
    ⌈savingsRemaining profile details / effectiveMonthlySaving profile details⌉
  else 0

/-- The month-by-month accumulation timeline of `analyzeSavings`: entries for
`i = 0 .. min(monthsReq, 60)` (none when that bound is negative, as the
source's `for` loop then runs zero times). -/
def savingsTimeline (profile : FinancialProfile) (details : PurchaseDetails) :
    List TimelineEntry :=
  let cap : ℤ := min (monthsRequiredFor profile details) 60
  if cap < 0 then []
  else (List.range (cap.toNat + 1)).map (fun (i : ℕ) =>
    let accumulated : ℚ :=
      profile.existingSavings + effectiveMonthlySaving profile details * (i : ℚ)
    { month := i
      accumulated := min accumulated details.actualPrice
      remaining := max 0 (details.actualPrice - accumulated) })

/-- Purchase-planner `analyzeSavings`.  `now` is the evaluation instant used
when no `startDate` is given (the source reads the wall clock there). -/
def analyzeSavings (now : ℤ) (profile : FinancialProfile) (details : PurchaseDetails) :
    SavingsAnalysis :=
  let monthsReq : ℤ := monthsRequiredFor profile details
  let startDate : ℤ := details.startDate.getD now
  let projDate := startDate + monthsReq
  let hypotheticalInterest := details.actualPrice * (12 / 100) * ((monthsReq : ℚ) / 12)
  { monthsRequired := monthsReq
    projectedPurchaseDate := projDate
    yearsRequired := (jsRound ((monthsReq : ℚ) / 12 * 10) : ℚ) / 10
    isFeasibleWithinYear := decide (monthsReq ≤ 12)
    savingsGrowthTimeline := savingsTimeline profile details
    delayBenefitAmount := jsRound hypotheticalInterest }

end Planner

/-- A trivial stand-in square-root function used to instantiate the abstract
`sqrtFn` parameter at concrete inputs. -/
def sqrtZero : ℚ → ℚ := fun _ => 0

/-- The financial profile of the spec's EMI boundary scenario. -/
def profileC1 : Planner.FinancialProfile :=
  { monthlyIncome := 60000, monthlyExpenses := 30000, monthlyRoutineBills := 5000,
    existingSavings := 0, extraSavingPerMonth := 0 }

/-- The purchase details of the spec's EMI boundary scenario. -/
def detailsC1 : Planner.PurchaseDetails :=
  { itemName := "item", actualPrice := 120000, mode := "emi",
    downPayment := some 0, emiTenureMonths := some 12, interestRate := some 0 }

/-- A profile with a negative planned extra saving (the planner never
validates signs), driving the savings timeline degenerate. -/
def profileNegSaving : Planner.FinancialProfile :=
  { monthlyIncome := 0, monthlyExpenses := 0, monthlyRoutineBills := 0,
    existingSavings := 0, extraSavingPerMonth := -1 }

/-- Purchase details for the degenerate savings-timeline input. -/
def detailsNegSaving : Planner.PurchaseDetails :=
  { itemName := "item", actualPrice := 5, mode := "savings" }

/-- A profile saving 100 per month toward a purchase. -/
def profileSaver : Planner.FinancialProfile :=
  { monthlyIncome := 1000, monthlyExpenses := 500, monthlyRoutineBills := 100,
    existingSavings := 0, extraSavingPerMonth := 100 }

/-- Purchase details for a 250-priced item bought from savings. -/
def detailsSaver : Planner.PurchaseDetails :=
  { itemName := "item", actualPrice := 250, mode := "savings" }

/-- A two-month income history (absolute months 23999 and 24000). -/
def wIncomes : List Income := [{ amount := 100, date := 23999 }, { amount := 200, date := 24000 }]

/-- Expenses in month 24000 across two categories. -/
def wExpenses : List Expense :=
  [{ amount := 40, category := "Food", date := 24000 },
   { amount := 10, category := "Transport", date := 24000 }]

/-! ## Theorems -/

/-- Summation distributes over pointwise subtraction. -/
theorem sum_map_sub_q {α : Type} (l : List α) (f g : α → ℚ) :
    (l.map (fun x => f x - g x)).sum = (l.map f).sum - (l.map g).sum := by
  induction l with
  | nil => simp
  | cons a l ih => simp [ih]; ring

/-- Summation distributes over pointwise addition. -/
theorem sum_map_add_q {α : Type} (l : List α) (f g : α → ℚ) :
    (l.map (fun x => f x + g x)).sum = (l.map f).sum + (l.map g).sum := by
  induction l with
  | nil => simp
  | cons a l ih => simp [ih]; ring

/-- Claim C8: for every principal `P` and every tenure `n > 0`,
`calculateEMI(P, 0, n)` equals `P / n` exactly (zero-interest boundary). -/
theorem calculateEMI_zero_rate (P : ℚ) (n : ℕ) (h : 0 < n) :
    Planner.calculateEMI P 0 n = P / (n : ℚ) := by
  simp [Planner.calculateEMI]

/-- Witness for C8 at `P = 100`, `n = 4`. -/
theorem calculateEMI_zero_rate_witness :
    0 < 4 ∧ Planner.calculateEMI 100 0 4 = 100 / ((4 : ℕ) : ℚ) :=
  ⟨by decide, calculateEMI_zero_rate 100 4 (by decide)⟩

/-- Counterexample to claim C1: on the boundary scenario (disposable income
25000, EMI 10000, burden exactly 40%), `analyzeEMI` does NOT report the
purchase affordable — the source uses the strict comparison `emiBurden < 40`,
so it is not the case that `emiAmount = 10000` and `isAffordable = true`. -/
theorem analyzeEMI_boundary_counterexample :
    ¬ ((Planner.analyzeEMI profileC1 detailsC1).emiAmount = 10000 ∧
       (Planner.analyzeEMI profileC1 detailsC1).isAffordable = true) := by
  have h : (Planner.analyzeEMI profileC1 detailsC1).isAffordable = false := by
    norm_num [Planner.analyzeEMI, Planner.calculateEMI, jsOrNum, jsOrNat,
      profileC1, detailsC1]
  simp [h]

/-- Claim C1 as amended: on the boundary scenario the EMI is 10000, the
disposable income is 25000, the burden is exactly 40%, and `isAffordable` is
`false` because the source treats exactly 40% as not affordable. -/
theorem analyzeEMI_boundary :
    (Planner.analyzeEMI profileC1 detailsC1).emiAmount = 10000 ∧
    (Planner.analyzeEMI profileC1 detailsC1).disposableIncome = 25000 ∧
    (Planner.analyzeEMI profileC1 detailsC1).emiBurdenPercent = 40 ∧
    (Planner.analyzeEMI profileC1 detailsC1).isAffordable = false := by
  norm_num [Planner.analyzeEMI, Planner.calculateEMI, jsOrNum, jsOrNat, jsRound,
    profileC1, detailsC1]

/-- The category-name accumulator preserves `Nodup`. -/
theorem catNames_go_nodup (es : List Expense) :
    ∀ ks : List String, ks.Nodup →
      (es.foldl (fun ks e => if e.category ∈ ks then ks else ks ++ [e.category]) ks).Nodup := by
  induction es with
  | nil => intro ks h; simpa using h
  | cons e es ih =>
    intro ks h
    simp only [List.foldl_cons]
    apply ih
    by_cases hm : e.category ∈ ks
    · simpa [hm] using h
    · rw [if_neg hm]
      simp [List.nodup_append, h, hm]

/-- The category-name accumulator only grows. -/
theorem subset_catNames_go (es : List Expense) :
    ∀ ks : List String,
      ks ⊆ es.foldl (fun ks e => if e.category ∈ ks then ks else ks ++ [e.category]) ks := by
  induction es with
  | nil => intro ks; simp
  | cons e es ih =>
    intro ks a ha
    simp only [List.foldl_cons]
    apply ih
    by_cases hm : e.category ∈ ks
    · rwa [if_pos hm]
    · rw [if_neg hm]
      exact List.mem_append_left _ ha

/-- Every expense's category appears in the accumulated name list. -/
theorem mem_catNames_go (es : List Expense) :
    ∀ (ks : List String) (e : Expense), e ∈ es →
      e.category ∈
        es.foldl (fun ks e => if e.category ∈ ks then ks else ks ++ [e.category]) ks := by
  induction es with
  | nil => intro ks e he; cases he
  | cons f es ih =>
    intro ks e he
    simp only [List.foldl_cons]
    rcases List.mem_cons.1 he with rfl | hmem
    · apply subset_catNames_go es
      by_cases hm : e.category ∈ ks
      · rwa [if_pos hm]
      · rw [if_neg hm]
        exact List.mem_append_right _ (List.mem_singleton_self _)
    · exact ih _ e hmem

/-- `catNames` has no duplicates. -/
theorem catNames_nodup (es : List Expense) : (catNames es).Nodup :=
  catNames_go_nodup es [] List.nodup_nil

/-- Every expense's category is listed in `catNames`. -/
theorem mem_catNames {es : List Expense} {e : Expense} (he : e ∈ es) :
    e.category ∈ catNames es :=
  mem_catNames_go es [] e he

/-- `catTotal` over the empty ledger is zero. -/
theorem catTotal_nil (c : String) : catTotal [] c = 0 := rfl

/-- `catTotal` unfolds one expense at a time. -/
theorem catTotal_cons (e : Expense) (es : List Expense) (c : String) :
    catTotal (e :: es) c = (if e.category = c then e.amount else 0) + catTotal es c := by
  by_cases h : e.category = c
  · simp [catTotal, List.filter_cons, h]
  · simp [catTotal, List.filter_cons, h]

/-- Summing an indicator over a list not containing the key gives zero. -/
theorem sum_map_ite_not_mem (K : List String) (k : String) (a : ℚ) (h : k ∉ K) :
    (K.map (fun c => if k = c then a else 0)).sum = 0 := by
  induction K with
  | nil => simp
  | cons c K ih =>
    have hne : k ≠ c := fun hk => h (hk ▸ List.mem_cons_self c K)
    have hK : k ∉ K := fun hk => h (List.mem_cons_of_mem c hk)
    simp [hne, ih hK]

/-- Summing an indicator over a duplicate-free list containing the key gives
the indicated value once. -/
theorem sum_map_ite_mem (K : List String) (hK : K.Nodup) (k : String) (hk : k ∈ K)
    (a : ℚ) : (K.map (fun c => if k = c then a else 0)).sum = a := by
  induction K with
  | nil => cases hk
  | cons c K ih =>
    rcases List.mem_cons.1 hk with rfl | hmem
    · rw [List.map_cons, List.sum_cons, if_pos rfl,
        sum_map_ite_not_mem K k a (List.nodup_cons.1 hK).1, add_zero]
    · have hne : k ≠ c := by
        rintro rfl
        exact (List.nodup_cons.1 hK).1 hmem
      simp only [List.map_cons, List.sum_cons, if_neg hne]
      rw [ih (List.nodup_cons.1 hK).2 hmem]
      ring

/-- Partition identity: summing per-category totals over any duplicate-free
list of names covering all categories present gives the all-expense total. -/
theorem sum_map_catTotal (K : List String) (hK : K.Nodup) (es : List Expense)
    (hcov : ∀ e ∈ es, e.category ∈ K) :
    (K.map (catTotal es)).sum = (es.map Expense.amount).sum := by
  induction es with
  | nil =>
    rw [List.map_congr_left (fun c _ => catTotal_nil c)]
    simp
  | cons e es ih =>
    rw [List.map_congr_left (fun c _ => catTotal_cons e es c), sum_map_add_q,
      sum_map_ite_mem K hK e.category (hcov e (List.mem_cons_self e es)) e.amount,
      ih (fun x hx => hcov x (List.mem_cons_of_mem e hx))]
    simp

/-- The per-category totals of `catNames` partition the all-expense total. -/
theorem sum_catTotal (es : List Expense) :
    ((catNames es).map (catTotal es)).sum = (es.map Expense.amount).sum :=
  sum_map_catTotal (catNames es) (catNames_nodup es) es (fun _ he => mem_catNames he)

/-- The category summaries are a permutation of the unsorted per-name builds. -/
theorem categories_perm (now : ℤ) (es : List Expense) :
    List.Perm (getCategorySummaries now es) ((catNames es).map (catBuild now es)) :=
  List.mergeSort_perm _ _

/-- The summaries' totals sum to the all-expense total. -/
theorem categories_total_sum (now : ℤ) (es : List Expense) :
    ((getCategorySummaries now es).map CategorySummary.total).sum =
      (es.map Expense.amount).sum := by
  rw [List.Perm.sum_eq ((categories_perm now es).map CategorySummary.total),
    List.map_map,
    show CategorySummary.total ∘ catBuild now es = catTotal es from rfl]
  exact sum_catTotal es

/-- The summaries are sorted by descending total. -/
theorem categories_sorted (now : ℤ) (es : List Expense) :
    (getCategorySummaries now es).Pairwise (fun a b => b.total ≤ a.total) := by
  have hs := @List.sorted_mergeSort CategorySummary
    (fun a b : CategorySummary => decide (b.total ≤ a.total))
    (fun a b c hab hbc => by
      simp only [decide_eq_true_eq] at *
      exact le_trans hbc hab)
    (fun a b => by
      by_cases h : b.total ≤ a.total
      · simp [h]
      · simp [le_of_lt (lt_of_not_le h)])
    ((catNames es).map (catBuild now es))
  exact hs.imp (fun h => of_decide_eq_true h)

/-- `jsRound` maps nonnegative inputs to nonnegative integers. -/
theorem jsRound_nonneg (q : ℚ) (h : 0 ≤ q) : 0 ≤ jsRound q := by
  rw [jsRound]
  exact Int.le_floor.mpr (by push_cast; linarith)

/-- `jsRound` of a value at most 100 is at most 100. -/
theorem jsRound_le_100 (q : ℚ) (h : q ≤ 100) : jsRound q ≤ 100 := by
  rw [jsRound]
  have h2 : (⌊(201 / 2 : ℚ)⌋ : ℤ) = 100 := by norm_num
  calc ⌊q + 1 / 2⌋ ≤ ⌊(201 / 2 : ℚ)⌋ := Int.floor_le_floor (by linarith)
    _ = 100 := h2

/-- The savings-rate factor is clamped to [0, 100]. -/
theorem savingsScoreF_bounds (y : YearlySummary) :
    0 ≤ savingsScoreF y ∧ savingsScoreF y ≤ 100 := by
  rw [savingsScoreF]
  exact ⟨le_min (by norm_num) (le_max_left _ _), min_le_left _ _⟩

/-- The consistency factor is clamped to [0, 100] for any square root. -/
theorem consistencyScoreF_bounds (sqrtFn : ℚ → ℚ) (m : List MonthlyAggregate) :
    0 ≤ consistencyScoreF sqrtFn m ∧ consistencyScoreF sqrtFn m ≤ 100 := by
  rw [consistencyScoreF]
  split
  · exact ⟨le_max_left _ _, max_le (by norm_num) (min_le_left _ _)⟩
  · norm_num

/-- The income-stability factor lies in [0, 100] (it is 0, 25, 50 or 80). -/
theorem incomeStabilityF_bounds (m : List MonthlyAggregate) :
    0 ≤ incomeStabilityF m ∧ incomeStabilityF m ≤ 100 := by
  rw [incomeStabilityF]
  split
  · norm_num
  · rename_i hlen
    constructor
    · positivity
    · have h2 : ((m.filter (fun x => decide (0 < x.income))).length : ℚ) ≤ 2 := by
        exact_mod_cast (by omega : (m.filter (fun x => decide (0 < x.income))).length ≤ 2)
      nlinarith

/-- The trend factor takes only the values 90, 20 and 50. -/
theorem trendScoreF_cases (m : List MonthlyAggregate) :
    trendScoreF m = 90 ∨ trendScoreF m = 20 ∨ trendScoreF m = 50 := by
  rw [trendScoreF]
  split
  · dsimp only
    split
    · exact Or.inl rfl
    · split
      · exact Or.inr (Or.inl rfl)
      · exact Or.inr (Or.inr rfl)
  · exact Or.inr (Or.inr rfl)

/-- The trend factor is 20, 50 or 90, all within [0, 100]. -/
theorem trendScoreF_bounds (m : List MonthlyAggregate) :
    0 ≤ trendScoreF m ∧ trendScoreF m ≤ 100 := by
  rcases trendScoreF_cases m with h | h | h <;> rw [h] <;> norm_num

/-- When the all-expense total is positive, the top (first, largest-total)
category summary has a positive total. -/
theorem head_total_pos (now : ℤ) (es : List Expense) (c : CategorySummary)
    (hh : (getCategorySummaries now es).head? = some c)
    (hT : 0 < (es.map Expense.amount).sum) : 0 < c.total := by
  obtain ⟨t, ht⟩ : ∃ t, getCategorySummaries now es = c :: t := by
    rcases h : getCategorySummaries now es with _ | ⟨c', t⟩
    · rw [h] at hh; cases hh
    · rw [h] at hh
      simp only [List.head?_cons, Option.some.injEq] at hh
      exact ⟨t, by rw [hh]⟩
  have hsort := categories_sorted now es
  rw [ht] at hsort
  have hbound : ∀ x ∈ t.map CategorySummary.total, x ≤ c.total := by
    intro x hx
    obtain ⟨y, hy, rfl⟩ := List.mem_map.1 hx
    exact List.rel_of_pairwise_cons hsort hy
  have hsum : c.total + (t.map CategorySummary.total).sum =
      (es.map Expense.amount).sum := by
    have h2 := categories_total_sum now es
    rw [ht] at h2
    simpa using h2
  by_contra hnp
  push_neg at hnp
  have hts := List.sum_le_card_nsmul (t.map CategorySummary.total) c.total hbound
  rw [List.length_map, nsmul_eq_mul] at hts
  have hlen : (0 : ℚ) ≤ (t.length : ℚ) := by positivity
  nlinarith

/-- The expense-diversity factor of the category summaries lies in [0, 100]:
it is floored at 0, and the top category's percentage is never negative. -/
theorem diversityScoreF_bounds (now : ℤ) (es : List Expense) :
    0 ≤ diversityScoreF (getCategorySummaries now es) ∧
    diversityScoreF (getCategorySummaries now es) ≤ 100 := by
  refine ⟨le_max_left _ _, ?_⟩
  rw [diversityScoreF]
  cases hh : (getCategorySummaries now es).head? with
  | none => simp
  | some c =>
    simp only
    have hp : 0 ≤ c.percentage := by
      have hmem : c ∈ getCategorySummaries now es := List.mem_of_mem_head? hh
      obtain ⟨c₀, hc₀, hceq⟩ := List.mem_map.1 ((categories_perm now es).subset hmem)
      by_cases hT : 0 < (es.map Expense.amount).sum
      · have htot : 0 < c.total := head_total_pos now es c hh hT
        have hcp : c.percentage =
            catTotal es c₀ / (es.map Expense.amount).sum * 100 := by
          rw [← hceq]
          simp only [catBuild]
          rw [if_pos hT]
        have htot2 : 0 < catTotal es c₀ := by
          have h3 : c.total = catTotal es c₀ := by rw [← hceq]; rfl
          rwa [h3] at htot
        rw [hcp]
        exact mul_nonneg (div_nonneg htot2.le hT.le) (by norm_num)
      · have hcp : c.percentage = 0 := by
          rw [← hceq]
          simp only [catBuild]
          rw [if_neg hT]
        rw [hcp]
    exact max_le (by norm_num) (by linarith)

/-- Claim C4: `getMonthlyAggregates` returns 12 aggregates covering the
trailing 12 calendar months oldest first (the k-th aggregate is the month
`now - 11 + k`); every aggregate satisfies `savings = income - expenses`, with
`savingsRate = savings/income*100` when income is positive and 0 when income
is zero; hence total savings equal total income minus total expenses. -/
theorem monthlyAggregates_invariants (now : ℤ) (incomes : List Income)
    (expenses : List Expense) :
    (getMonthlyAggregates now incomes expenses).length = 12 ∧
    (∀ a ∈ getMonthlyAggregates now incomes expenses,
        a.savings = a.income - a.expenses ∧
        (0 < a.income → a.savingsRate = a.savings / a.income * 100) ∧
        (a.income = 0 → a.savingsRate = 0)) ∧
    (∀ k : Fin 12,
        ((getMonthlyAggregates now incomes expenses).getD k dummyAgg).year * 12 +
            ((getMonthlyAggregates now incomes expenses).getD k dummyAgg).monthIndex =
          now - 11 + (k : ℤ)) ∧
    ((getMonthlyAggregates now incomes expenses).map MonthlyAggregate.savings).sum =
      ((getMonthlyAggregates now incomes expenses).map MonthlyAggregate.income).sum -
        ((getMonthlyAggregates now incomes expenses).map MonthlyAggregate.expenses).sum := by
  refine ⟨by simp [getMonthlyAggregates], ?_, ?_, ?_⟩
  · intro a ha
    simp only [getMonthlyAggregates, List.mem_map] at ha
    obtain ⟨k, hk, rfl⟩ := ha
    refine ⟨by simp [monthAggregate], ?_, ?_⟩
    · intro h
      simp only [monthAggregate] at h ⊢
      rw [if_pos h]
    · intro h
      simp only [monthAggregate] at h ⊢
      rw [if_neg (by rw [h]; exact lt_irrefl 0)]
  · intro k
    have hk : (k : ℕ) < (List.range 12).length := by simp [k.isLt]
    simp only [getMonthlyAggregates, List.getD_eq_getElem?_getD, List.getElem?_map,
      List.getElem?_range, k.isLt, monthAggregate, Option.map_some', Option.getD_some]
    omega
  · simp only [getMonthlyAggregates, List.map_map, Function.comp_def, monthAggregate]
    exact sum_map_sub_q _ _ _

/-- Claim C2: with at least two active months, `getPredictions` classifies the
trend by the savings-rate delta between the most recent active month and the
active month at index `length - 3` (the third from the end, i.e. the first of
the `slice(-3)` window, which is the oldest available month when fewer than
three exist): "improving" if the delta exceeds 3 percentage points,
"declining" if it is below −3, else "stable". -/
theorem getPredictions_trend (now : ℤ) (incomes : List Income)
    (expenses : List Expense)
    (h : 2 ≤ (activeMonths now incomes expenses).length) :
    (getPredictions now incomes expenses).trend =
      (if 3 < ((activeMonths now incomes expenses).getD
                  ((activeMonths now incomes expenses).length - 1) dummyAgg).savingsRate -
                ((activeMonths now incomes expenses).getD
                  ((activeMonths now incomes expenses).length - 3) dummyAgg).savingsRate
       then "improving"
       else if ((activeMonths now incomes expenses).getD
                  ((activeMonths now incomes expenses).length - 1) dummyAgg).savingsRate -
                ((activeMonths now incomes expenses).getD
                  ((activeMonths now incomes expenses).length - 3) dummyAgg).savingsRate
                < -3
       then "declining" else "stable") := by
  have h2 : ¬ (activeMonths now incomes expenses).length < 2 := by omega
  have hp : (getPredictions now incomes expenses).trend =
      trendOf (activeMonths now incomes expenses) := by
    rw [getPredictions, if_neg h2]
  rw [hp, trendOf]
  have hlen : ((activeMonths now incomes expenses).drop
      ((activeMonths now incomes expenses).length - 3)).length =
      (activeMonths now incomes expenses).length -
        ((activeMonths now incomes expenses).length - 3) :=
    List.length_drop _ _
  have h23 : 2 ≤ ((activeMonths now incomes expenses).drop
      ((activeMonths now incomes expenses).length - 3)).length := by omega
  rw [if_pos h23]
  have e0 : ((activeMonths now incomes expenses).drop
      ((activeMonths now incomes expenses).length - 3)).getD 0 dummyAgg =
      (activeMonths now incomes expenses).getD
        ((activeMonths now incomes expenses).length - 3) dummyAgg := by
    rw [List.getD_eq_getElem?_getD, List.getD_eq_getElem?_getD, List.getElem?_drop]
    simp
  have e1 : ((activeMonths now incomes expenses).drop
      ((activeMonths now incomes expenses).length - 3)).getD
        (((activeMonths now incomes expenses).drop
          ((activeMonths now incomes expenses).length - 3)).length - 1) dummyAgg =
      (activeMonths now incomes expenses).getD
        ((activeMonths now incomes expenses).length - 1) dummyAgg := by
    rw [List.getD_eq_getElem?_getD, List.getD_eq_getElem?_getD, List.getElem?_drop]
    congr 2
    omega
  rw [e0, e1]

/-- Witness for C2 on the concrete two-month history: the savings rate falls
from 100% to 75%, so the trend is "declining". -/
theorem getPredictions_trend_witness :
    2 ≤ (activeMonths 24000 wIncomes wExpenses).length ∧
    (getPredictions 24000 wIncomes wExpenses).trend =
      (if 3 < ((activeMonths 24000 wIncomes wExpenses).getD
                  ((activeMonths 24000 wIncomes wExpenses).length - 1) dummyAgg).savingsRate -
                ((activeMonths 24000 wIncomes wExpenses).getD
                  ((activeMonths 24000 wIncomes wExpenses).length - 3) dummyAgg).savingsRate
       then "improving"
       else if ((activeMonths 24000 wIncomes wExpenses).getD
                  ((activeMonths 24000 wIncomes wExpenses).length - 1) dummyAgg).savingsRate -
                ((activeMonths 24000 wIncomes wExpenses).getD
                  ((activeMonths 24000 wIncomes wExpenses).length - 3) dummyAgg).savingsRate
                < -3
       then "declining" else "stable") := by
  have hr : List.range 12 = [0, 1, 2, 3, 4, 5, 6, 7, 8, 9, 10, 11] := by rfl
  have hact : 2 ≤ (activeMonths 24000 wIncomes wExpenses).length := by
    norm_num [activeMonths, getMonthlyAggregates, monthAggregate, hr, wIncomes,
      wExpenses, List.filter_cons, beq_iff_eq]
  exact ⟨hact, getPredictions_trend 24000 wIncomes wExpenses hact⟩

/-- Counterexample to claim C10: `analyzeSavings` never validates signs, so
with a negative planned saving (extraSavingPerMonth = −1) and a positive
remaining amount, `monthsRequired` is −5, the timeline is empty, and the
claimed bound `length ≤ min(monthsRequired, 60) + 1 = −4` is false. -/
theorem savingsTimeline_counterexample :
    ¬ (((Planner.analyzeSavings 0 profileNegSaving detailsNegSaving).savingsGrowthTimeline.length : ℤ) ≤
        min (Planner.analyzeSavings 0 profileNegSaving detailsNegSaving).monthsRequired 60 + 1) := by
  have hc : (⌈(-5 : ℚ)⌉ : ℤ) = -5 := by
    rw [show (-5 : ℚ) = ((-5 : ℤ) : ℚ) by norm_num]
    exact Int.ceil_intCast _
  norm_num [Planner.analyzeSavings, Planner.savingsTimeline, Planner.monthsRequiredFor,
    Planner.savingsRemaining, Planner.effectiveMonthlySaving, jsOrNum, jsOrQ,
    profileNegSaving, detailsNegSaving, hc]

/-- Claim C10 as amended: whenever the effective monthly saving
(`monthlySavingForPurchase || extraSavingPerMonth || 1`) is positive — in
particular for all non-negative profile inputs — every timeline entry
satisfies `accumulated + remaining = actualPrice`, `accumulated ≤ actualPrice`
and `remaining ≥ 0`, and the timeline has exactly
`min(monthsRequired, 60) + 1` entries. -/
theorem savingsTimeline_invariants (now : ℤ) (profile : Planner.FinancialProfile)
    (details : Planner.PurchaseDetails)
    (h : 0 < Planner.effectiveMonthlySaving profile details) :
    (∀ e ∈ (Planner.analyzeSavings now profile details).savingsGrowthTimeline,
        e.accumulated + e.remaining = details.actualPrice ∧
        e.accumulated ≤ details.actualPrice ∧ 0 ≤ e.remaining) ∧
    ((Planner.analyzeSavings now profile details).savingsGrowthTimeline.length : ℤ) =
      min (Planner.analyzeSavings now profile details).monthsRequired 60 + 1 := by
  have hreq : 0 ≤ Planner.monthsRequiredFor profile details := by
    rw [Planner.monthsRequiredFor]
    split
    · rename_i hrem
      exact Int.ceil_nonneg (le_of_lt (div_pos hrem h))
    · exact le_refl 0
  have htl : (Planner.analyzeSavings now profile details).savingsGrowthTimeline =
      Planner.savingsTimeline profile details := rfl
  have hmr : (Planner.analyzeSavings now profile details).monthsRequired =
      Planner.monthsRequiredFor profile details := rfl
  rw [htl, hmr]
  constructor
  · intro e he
    rw [Planner.savingsTimeline] at he
    rw [if_neg (by omega)] at he
    simp only [List.mem_map] at he
    obtain ⟨i, hi, rfl⟩ := he
    refine ⟨?_, ?_, ?_⟩
    · dsimp only
      rcases le_total (profile.existingSavings +
          Planner.effectiveMonthlySaving profile details * (i : ℚ))
          details.actualPrice with hle | hle
      · rw [min_eq_left hle, max_eq_right (by linarith)]
        ring
      · rw [min_eq_right hle, max_eq_left (by linarith)]
        ring
    · exact min_le_right _ _
    · exact le_max_left _ _
  · rw [Planner.savingsTimeline, if_neg (by omega)]
    rw [List.length_map, List.length_range]
    omega

/-- Witness for C10 at a saver putting aside 100 per month toward a 250-priced
item (3 months required, 4 timeline entries). -/
theorem savingsTimeline_invariants_witness :
    0 < Planner.effectiveMonthlySaving profileSaver detailsSaver ∧
    ((∀ e ∈ (Planner.analyzeSavings 0 profileSaver detailsSaver).savingsGrowthTimeline,
        e.accumulated + e.remaining = detailsSaver.actualPrice ∧
        e.accumulated ≤ detailsSaver.actualPrice ∧ 0 ≤ e.remaining) ∧
     ((Planner.analyzeSavings 0 profileSaver detailsSaver).savingsGrowthTimeline.length : ℤ) =
       min (Planner.analyzeSavings 0 profileSaver detailsSaver).monthsRequired 60 + 1) :=
  ⟨by norm_num [Planner.effectiveMonthlySaving, jsOrNum, jsOrQ, profileSaver, detailsSaver],
   savingsTimeline_invariants 0 profileSaver detailsSaver
     (by norm_num [Planner.effectiveMonthlySaving, jsOrNum, jsOrQ, profileSaver,
       detailsSaver])⟩

/-- Claim C5: for a non-empty expense list with positive total, the category
summaries' percentages sum to exactly 100 (exact rational arithmetic; no
rounding error in the model) and the list is sorted by descending total. -/
theorem categorySummaries_props (now : ℤ) (expenses : List Expense)
    (hne : expenses ≠ []) (hpos : 0 < (expenses.map Expense.amount).sum) :
    ((getCategorySummaries now expenses).map CategorySummary.percentage).sum = 100 ∧
    (getCategorySummaries now expenses).Pairwise (fun a b => b.total ≤ a.total) := by
  refine ⟨?_, categories_sorted now expenses⟩
  rw [List.Perm.sum_eq ((categories_perm now expenses).map CategorySummary.percentage),
    List.map_map,
    show CategorySummary.percentage ∘ catBuild now expenses = fun c =>
        if 0 < (expenses.map Expense.amount).sum then
          catTotal expenses c / (expenses.map Expense.amount).sum * 100
        else 0 from rfl,
    List.map_congr_left (fun c _ => if_pos hpos),
    List.map_congr_left (fun c _ => by ring :
      ∀ c ∈ catNames expenses,
        catTotal expenses c / (expenses.map Expense.amount).sum * 100 =
          catTotal expenses c * (100 / (expenses.map Expense.amount).sum)),
    List.sum_map_mul_right, sum_catTotal]
  have hT0 : (expenses.map Expense.amount).sum ≠ 0 := ne_of_gt hpos
  field_simp

/-- Witness for C5 on the concrete expenses (Food 40, Transport 10: shares
80% and 20%). -/
theorem categorySummaries_props_witness :
    wExpenses ≠ [] ∧ 0 < (wExpenses.map Expense.amount).sum ∧
    (((getCategorySummaries 24000 wExpenses).map CategorySummary.percentage).sum = 100 ∧
     (getCategorySummaries 24000 wExpenses).Pairwise (fun a b => b.total ≤ a.total)) :=
  ⟨by simp [wExpenses], by norm_num [wExpenses],
   categorySummaries_props 24000 wExpenses (by simp [wExpenses])
     (by norm_num [wExpenses])⟩

/-- Claim C3: for every record set (including empty ones) the health score has
exactly 5 factors whose weights sum to 1, each factor's sub-score lies in
[0, 100], the composite equals `round(Σ score × weight)` and lies in [0, 100],
and the grade follows the ≥85/≥70/≥55/≥40 bands. -/
theorem healthScore_props (sqrtFn : ℚ → ℚ) (now : ℤ) (incomes : List Income)
    (expenses : List Expense) :
    (getFinancialHealthScore sqrtFn now incomes expenses).factors.length = 5 ∧
    ((getFinancialHealthScore sqrtFn now incomes expenses).factors.map
        ScoreFactor.weight).sum = 1 ∧
    (getFinancialHealthScore sqrtFn now incomes expenses).score =
      jsRound (((getFinancialHealthScore sqrtFn now incomes expenses).factors.map
        (fun f => f.score * f.weight)).sum) ∧
    (∀ f ∈ (getFinancialHealthScore sqrtFn now incomes expenses).factors,
        0 ≤ f.score ∧ f.score ≤ 100) ∧
    0 ≤ (getFinancialHealthScore sqrtFn now incomes expenses).score ∧
    (getFinancialHealthScore sqrtFn now incomes expenses).score ≤ 100 ∧
    (getFinancialHealthScore sqrtFn now incomes expenses).grade =
      (if 85 ≤ (getFinancialHealthScore sqrtFn now incomes expenses).score then "A"
       else if 70 ≤ (getFinancialHealthScore sqrtFn now incomes expenses).score then "B"
       else if 55 ≤ (getFinancialHealthScore sqrtFn now incomes expenses).score then "C"
       else if 40 ≤ (getFinancialHealthScore sqrtFn now incomes expenses).score then "D"
       else "F") := by
  obtain ⟨h1a, h1b⟩ := savingsScoreF_bounds (getYearlySummary now incomes expenses)
  obtain ⟨h2a, h2b⟩ := diversityScoreF_bounds now expenses
  obtain ⟨h3a, h3b⟩ :=
    consistencyScoreF_bounds sqrtFn (getMonthlyAggregates now incomes expenses)
  obtain ⟨h4a, h4b⟩ := incomeStabilityF_bounds (getMonthlyAggregates now incomes expenses)
  obtain ⟨h5a, h5b⟩ := trendScoreF_bounds (getMonthlyAggregates now incomes expenses)
  have hfac : (getFinancialHealthScore sqrtFn now incomes expenses).factors =
      [ { label := "Savings Rate",
          score := savingsScoreF (getYearlySummary now incomes expenses),
          weight := 35 / 100 },
        { label := "Expense Diversity",
          score := diversityScoreF (getCategorySummaries now expenses),
          weight := 20 / 100 },
        { label := "Spending Consistency",
          score := consistencyScoreF sqrtFn (getMonthlyAggregates now incomes expenses),
          weight := 20 / 100 },
        { label := "Income Stability",
          score := incomeStabilityF (getMonthlyAggregates now incomes expenses),
          weight := 15 / 100 },
        { label := "Financial Trend",
          score := trendScoreF (getMonthlyAggregates now incomes expenses),
          weight := 10 / 100 } ] := rfl
  have hscore : (getFinancialHealthScore sqrtFn now incomes expenses).score =
      jsRound (((getFinancialHealthScore sqrtFn now incomes expenses).factors.map
        (fun f => f.score * f.weight)).sum) := rfl
  have hsum : (((getFinancialHealthScore sqrtFn now incomes expenses).factors.map
        (fun f => f.score * f.weight)).sum) =
      savingsScoreF (getYearlySummary now incomes expenses) * (35 / 100) +
        (diversityScoreF (getCategorySummaries now expenses) * (20 / 100) +
          (consistencyScoreF sqrtFn (getMonthlyAggregates now incomes expenses) * (20 / 100) +
            (incomeStabilityF (getMonthlyAggregates now incomes expenses) * (15 / 100) +
              (trendScoreF (getMonthlyAggregates now incomes expenses) * (10 / 100) + 0)))) := by
    rw [hfac]
    rfl
  refine ⟨by rw [hfac]; rfl, by rw [hfac]; norm_num, hscore, ?_, ?_, ?_, rfl⟩
  · rw [hfac]
    intro f hf
    simp only [List.mem_cons, List.not_mem_nil, or_false] at hf
    rcases hf with rfl | rfl | rfl | rfl | rfl
    · exact ⟨h1a, h1b⟩
    · exact ⟨h2a, h2b⟩
    · exact ⟨h3a, h3b⟩
    · exact ⟨h4a, h4b⟩
    · exact ⟨h5a, h5b⟩
  · rw [hscore, hsum]
    exact jsRound_nonneg _ (by nlinarith)
  · rw [hscore, hsum]
    exact jsRound_le_100 _ (by nlinarith)

/-- Claim C6: with fewer than two active months, `getPredictions` returns the
zeroed prediction with an empty projection and trend "stable". -/
theorem getPredictions_degenerate (now : ℤ) (incomes : List Income)
    (expenses : List Expense)
    (h : (activeMonths now incomes expenses).length < 2) :
    getPredictions now incomes expenses =
      { nextMonthIncome := 0, nextMonthExpense := 0, nextMonthSavingsRate := 0,
        threeMonthProjection := [], trend := "stable" } := by
  simp [getPredictions, h]

/-- Witness for C6 at empty record lists. -/
theorem getPredictions_degenerate_witness :
    (activeMonths 0 [] []).length < 2 ∧
    getPredictions 0 [] [] =
      { nextMonthIncome := 0, nextMonthExpense := 0, nextMonthSavingsRate := 0,
        threeMonthProjection := [], trend := "stable" } :=
  ⟨by decide, getPredictions_degenerate 0 [] [] (by decide)⟩

/-- Claim C7: for empty income and expense lists, `generateInsights` returns
exactly the single informational "get started" insight. -/
theorem generateInsights_empty (sqrtFn : ℚ → ℚ) (now : ℤ) :
    Insights.generateInsights sqrtFn now [] [] =
      [{ type := "info",
         message := "Welcome! Start by adding your income and expenses to unlock 100+ personalized financial insights." }] := by
  simp [Insights.generateInsights]

/-- Claim C9: all six analytics/insight functions are deterministic — two
calls on identical records at the same evaluation instant return identical
output (every function is a pure function of the records and the instant). -/
theorem analytics_deterministic (sqrtFn : ℚ → ℚ) (now now₂ : ℤ)
    (incomes incomes₂ : List Income) (expenses expenses₂ : List Expense)
    (hn : now = now₂) (hi : incomes = incomes₂) (he : expenses = expenses₂) :
    getMonthlyAggregates now incomes expenses =
        getMonthlyAggregates now₂ incomes₂ expenses₂ ∧
    getCategorySummaries now expenses = getCategorySummaries now₂ expenses₂ ∧
    getYearlySummary now incomes expenses = getYearlySummary now₂ incomes₂ expenses₂ ∧
    getFinancialHealthScore sqrtFn now incomes expenses =
        getFinancialHealthScore sqrtFn now₂ incomes₂ expenses₂ ∧
    getPredictions now incomes expenses = getPredictions now₂ incomes₂ expenses₂ ∧
    Insights.generateInsights sqrtFn now incomes expenses =
        Insights.generateInsights sqrtFn now₂ incomes₂ expenses₂ := by
  subst hn; subst hi; subst he
  exact ⟨rfl, rfl, rfl, rfl, rfl, rfl⟩

/-- Witness for C9 at the concrete two-month history. -/
theorem analytics_deterministic_witness :
    (24000 : ℤ) = 24000 ∧ wIncomes = wIncomes ∧ wExpenses = wExpenses ∧
    (getMonthlyAggregates 24000 wIncomes wExpenses =
        getMonthlyAggregates 24000 wIncomes wExpenses ∧
     getCategorySummaries 24000 wExpenses = getCategorySummaries 24000 wExpenses ∧
     getYearlySummary 24000 wIncomes wExpenses =
        getYearlySummary 24000 wIncomes wExpenses ∧
     getFinancialHealthScore sqrtZero 24000 wIncomes wExpenses =
        getFinancialHealthScore sqrtZero 24000 wIncomes wExpenses ∧
     getPredictions 24000 wIncomes wExpenses = getPredictions 24000 wIncomes wExpenses ∧
     Insights.generateInsights sqrtZero 24000 wIncomes wExpenses =
        Insights.generateInsights sqrtZero 24000 wIncomes wExpenses) :=
  ⟨rfl, rfl, rfl,
   analytics_deterministic sqrtZero 24000 24000 wIncomes wIncomes wExpenses wExpenses
     rfl rfl rfl⟩

end MoneySaarthi
